import Mathlib

/-! Verification of the Ecowitt GW1000 parser for RainMachine
(`src/ecowitt-parser.py`), as a shallow embedding in Lean 4.

Modelling conventions:
  * byte buffers are `List ℕ` (each entry a byte value below 256);
  * machine integers decoded by `read_int` are `ℤ`, with explicit
    two-complement wrap mirroring `struct.unpack` of signed formats;
  * Python float arithmetic is modelled over `ℚ` (the divisions by 10,
    100 and the solar constants are exact decimal operations, and the
    spec grants a 1e-9 tolerance for means);
  * timestamps are `ℤ` epoch seconds;
  * a Python exception is modelled as `Option.none` or `Except.error`:
    a `struct.error` from a short buffer slice inside `read_int`, an
    uncaught `ValueError` from `json.load` on a corrupted file;
  * the Python aliasing of `self.observations` with the class-level
    dict `ECOWITT.observations` (the reset template) is modelled
    explicitly in `PState`: the `aliased` flag records whether the
    current dict IS the template object, and every mutation of the
    current dict is propagated to the template exactly when aliased.
-/

/-- The RainMachine data types that the parser reports
(`RMParser.dataType.*` keys used by the source). -/
inductive DataType
  | temperature
  | maxtemp
  | mintemp
  | rh
  | maxrh
  | minrh
  | wind
  | solarradiation
  | rain
  | pressure
deriving DecidableEq, Repr

/-- The observation dictionary of the source: the running aggregation
state for the current day.  Field names follow the dict keys:
`observations` counter, running sums, extrema, rain high-water mark
and the timestamp of the period. -/
structure Obs where
  counter : ℕ
  temperature : ℚ
  maxtemp : ℚ
  mintemp : ℚ
  rh : ℚ
  maxrh : ℚ
  minrh : ℚ
  wind : ℚ
  solarradiation : ℚ
  rain : ℚ
  pressure : ℚ
  timestamp : ℤ
deriving DecidableEq, Repr

/-- The class-level default observation dict of the source
(lines 56-67): counter 0, sums 0, maxTemp -100, minTemp 100,
maxRH 0, minRH 100, rain 0, timestamp 0. -/
def defaultObs : Obs :=
  { counter := 0
    temperature := 0
    maxtemp := -100
    mintemp := 100
    rh := 0
    maxrh := 0
    minrh := 100
    wind := 0
    solarradiation := 0
    rain := 0
    pressure := 0
    timestamp := 0 }

/-- Embedding of `read_int` of the source (lines 399-411): big-endian decode of the
slice `data[0:size]` via `struct.unpack`.  `struct.unpack` raises
`struct.error` when the slice is shorter than `size` (a longer buffer
is trimmed by the slice), modelled by `none`; a `size` outside
{1, 2, 4} falls through every branch and yields Python `None`,
also modelled by `none`.  Signed formats use two-complement wrap. -/
def read_int (data : List ℕ) (unsigned : Bool) (size : ℕ) : Option ℤ :=
  if size = 1 then
    match data with
    | b0 :: _ =>
        some (if unsigned then (b0 : ℤ)
              else if b0 < 128 then (b0 : ℤ) else (b0 : ℤ) - 256)
    | [] => none
  else if size = 2 then
    match data with
    | b0 :: b1 :: _ =>
        let v : ℕ := b0 * 256 + b1
        some (if unsigned then (v : ℤ)
              else if v < 32768 then (v : ℤ) else (v : ℤ) - 65536)
    | _ => none
  else if size = 4 then
    match data with
    | b0 :: b1 :: b2 :: b3 :: _ =>
        let v : ℕ := ((b0 * 256 + b1) * 256 + b2) * 256 + b3
        some (if unsigned then (v : ℤ)
              else if v < 2147483648 then (v : ℤ) else (v : ℤ) - 4294967296)
    | _ => none
  else none

/-- Embedding of `_outdoor_temperature` (lines 282-290): signed decode, divide by 10,
add to the running sum, update max and min. The `payload` argument is
the slice `data[index + 1 : index + 1 + size]`. -/
def _outdoor_temperature (payload : List ℕ) (size : ℕ) (s : Obs) : Option Obs :=
  (read_int payload false size).map fun v =>
    let outdoor_temperature : ℚ := (v : ℚ) / 10
    let s := { s with temperature := s.temperature + outdoor_temperature }
    let s := if outdoor_temperature > s.maxtemp
             then { s with maxtemp := outdoor_temperature } else s
    if outdoor_temperature < s.mintemp
    then { s with mintemp := outdoor_temperature } else s

/-- Embedding of `_outdoor_humidity` (lines 292-300): signed decode, no conversion,
add to the running sum, update max and min. -/
def _outdoor_humidity (payload : List ℕ) (size : ℕ) (s : Obs) : Option Obs :=
  (read_int payload false size).map fun v =>
    let outdoor_humidity : ℚ := (v : ℚ)
    let s := { s with rh := s.rh + outdoor_humidity }
    let s := if outdoor_humidity > s.maxrh
             then { s with maxrh := outdoor_humidity } else s
    if outdoor_humidity < s.minrh
    then { s with minrh := outdoor_humidity } else s

/-- Embedding of `_relative_barometric` (lines 302-305): signed decode, divide by 100
(dPa to kPa), add to the running sum. -/
def _relative_barometric (payload : List ℕ) (size : ℕ) (s : Obs) : Option Obs :=
  (read_int payload false size).map fun v =>
    let relative_barometric : ℚ := (v : ℚ) / 100
    { s with pressure := s.pressure + relative_barometric }

/-- Embedding of `_wind_speed` (lines 307-309): signed decode, divide by 10, add to
the running sum. -/
def _wind_speed (payload : List ℕ) (size : ℕ) (s : Obs) : Option Obs :=
  (read_int payload false size).map fun v =>
    let wind_speed : ℚ := (v : ℚ) / 10
    { s with wind := s.wind + wind_speed }

/-- Embedding of `_rain_day` (lines 311-315): signed decode, divide by 10, store
only when strictly greater than the stored value (high-water mark). -/
def _rain_day (payload : List ℕ) (size : ℕ) (s : Obs) : Option Obs :=
  (read_int payload false size).map fun v =>
    let rain_day : ℚ := (v : ℚ) / 10
    if rain_day > s.rain then { s with rain := rain_day } else s

/-- Embedding of `_light` (lines 317-321): signed decode, divide by 10 (lux), then
multiply by 0.0079 (lux to W per square metre) and by 0.0036 (W to
MJ per hour), add to the running sum. -/
def _light (payload : List ℕ) (size : ℕ) (s : Obs) : Option Obs :=
  (read_int payload false size).map fun v =>
    let light : ℚ := (v : ℚ) / 10
    let solar_radiation : ℚ := light * (79 / 10000)
    let solar_radiation : ℚ := solar_radiation * (36 / 10000)
    { s with solarradiation := s.solarradiation + solar_radiation }

/-- The handler tags of the dispatch table in `_read_sensor`: one per
distinct bound method stored in the `switcher` dict. -/
inductive Handler
  | outdoorTemperature
  | outdoorHumidity
  | relativeBarometric
  | windSpeed
  | rainDay
  | light
  | ignoreSensor
  | unknownSensor
deriving DecidableEq, Repr

/-- Dispatch of a handler on the payload slice.  `_ignore_sensor`
(lines 324-325) and `_unknown_sensor` (lines 328-329) only log and
leave the state untouched. -/
def applySensor : Handler → List ℕ → ℕ → Obs → Option Obs
  | .outdoorTemperature, p, sz, s => _outdoor_temperature p sz s
  | .outdoorHumidity, p, sz, s => _outdoor_humidity p sz s
  | .relativeBarometric, p, sz, s => _relative_barometric p sz s
  | .windSpeed, p, sz, s => _wind_speed p sz s
  | .rainDay, p, sz, s => _rain_day p sz s
  | .light, p, sz, s => _light p sz s
  | .ignoreSensor, _, _, s => some s
  | .unknownSensor, _, _, s => some s

/-- The `switcher` dict of `_read_sensor` (lines 178-276): sensor tag
byte to (handler, payload size in bytes); any unmapped tag falls back
to `(_unknown_sensor, 1)` (line 278). -/
def switcher (t : ℕ) : Handler × ℕ :=
  match t with
  | 0x01 => (.ignoreSensor, 2)
  | 0x02 => (.outdoorTemperature, 2)
  | 0x03 => (.ignoreSensor, 2)
  | 0x04 => (.ignoreSensor, 2)
  | 0x05 => (.ignoreSensor, 2)
  | 0x06 => (.ignoreSensor, 1)
  | 0x07 => (.outdoorHumidity, 1)
  | 0x08 => (.ignoreSensor, 2)
  | 0x09 => (.relativeBarometric, 2)
  | 0x0A => (.ignoreSensor, 2)
  | 0x0B => (.windSpeed, 2)
  | 0x0C => (.ignoreSensor, 2)
  | 0x0D => (.ignoreSensor, 2)
  | 0x0E => (.ignoreSensor, 2)
  | 0x0F => (.ignoreSensor, 2)
  | 0x10 => (.rainDay, 2)
  | 0x11 => (.ignoreSensor, 2)
  | 0x12 => (.ignoreSensor, 4)
  | 0x13 => (.ignoreSensor, 4)
  | 0x14 => (.ignoreSensor, 4)
  | 0x15 => (.light, 4)
  | 0x16 => (.ignoreSensor, 2)
  | 0x17 => (.ignoreSensor, 1)
  | 0x18 => (.ignoreSensor, 6)
  | 0x19 => (.ignoreSensor, 2)
  | 0x1A => (.ignoreSensor, 2)
  | 0x1B => (.ignoreSensor, 2)
  | 0x1C => (.ignoreSensor, 2)
  | 0x1D => (.ignoreSensor, 2)
  | 0x1E => (.ignoreSensor, 2)
  | 0x1F => (.ignoreSensor, 2)
  | 0x20 => (.ignoreSensor, 2)
  | 0x21 => (.ignoreSensor, 2)
  | 0x22 => (.ignoreSensor, 1)
  | 0x23 => (.ignoreSensor, 1)
  | 0x24 => (.ignoreSensor, 1)
  | 0x25 => (.ignoreSensor, 1)
  | 0x26 => (.ignoreSensor, 1)
  | 0x27 => (.ignoreSensor, 1)
  | 0x28 => (.ignoreSensor, 1)
  | 0x29 => (.ignoreSensor, 1)
  | 0x2A => (.ignoreSensor, 2)
  | 0x2B => (.ignoreSensor, 2)
  | 0x2C => (.ignoreSensor, 1)
  | 0x2D => (.ignoreSensor, 2)
  | 0x2E => (.ignoreSensor, 1)
  | 0x2F => (.ignoreSensor, 2)
  | 0x30 => (.ignoreSensor, 1)
  | 0x31 => (.ignoreSensor, 2)
  | 0x32 => (.ignoreSensor, 1)
  | 0x33 => (.ignoreSensor, 2)
  | 0x34 => (.ignoreSensor, 1)
  | 0x35 => (.ignoreSensor, 2)
  | 0x36 => (.ignoreSensor, 1)
  | 0x37 => (.ignoreSensor, 2)
  | 0x38 => (.ignoreSensor, 1)
  | 0x39 => (.ignoreSensor, 2)
  | 0x3A => (.ignoreSensor, 1)
  | 0x3B => (.ignoreSensor, 2)
  | 0x3C => (.ignoreSensor, 1)
  | 0x3D => (.ignoreSensor, 2)
  | 0x3E => (.ignoreSensor, 1)
  | 0x3F => (.ignoreSensor, 2)
  | 0x40 => (.ignoreSensor, 1)
  | 0x41 => (.ignoreSensor, 2)
  | 0x42 => (.ignoreSensor, 1)
  | 0x43 => (.ignoreSensor, 2)
  | 0x44 => (.ignoreSensor, 1)
  | 0x45 => (.ignoreSensor, 2)
  | 0x46 => (.ignoreSensor, 1)
  | 0x47 => (.ignoreSensor, 2)
  | 0x48 => (.ignoreSensor, 1)
  | 0x49 => (.ignoreSensor, 2)
  | 0x4A => (.ignoreSensor, 1)
  | 0x4C => (.ignoreSensor, 16)
  | 0x4D => (.ignoreSensor, 2)
  | 0x4E => (.ignoreSensor, 2)
  | 0x4F => (.ignoreSensor, 2)
  | 0x50 => (.ignoreSensor, 2)
  | 0x51 => (.ignoreSensor, 2)
  | 0x52 => (.ignoreSensor, 2)
  | 0x53 => (.ignoreSensor, 2)
  | 0x58 => (.ignoreSensor, 1)
  | 0x59 => (.ignoreSensor, 1)
  | 0x5A => (.ignoreSensor, 1)
  | 0x5B => (.ignoreSensor, 1)
  | 0x60 => (.ignoreSensor, 1)
  | 0x61 => (.ignoreSensor, 4)
  | 0x62 => (.ignoreSensor, 4)
  | 0x63 => (.ignoreSensor, 3)
  | 0x64 => (.ignoreSensor, 3)
  | 0x65 => (.ignoreSensor, 3)
  | 0x66 => (.ignoreSensor, 3)
  | 0x67 => (.ignoreSensor, 3)
  | 0x68 => (.ignoreSensor, 3)
  | 0x69 => (.ignoreSensor, 3)
  | 0x6A => (.ignoreSensor, 3)
  | _ => (.unknownSensor, 1)

/-- Embedding of `_read_sensor` (lines 177-280): read the tag byte `data[index]`,
look it up in the switcher, run the handler on the buffer at the
current offset, return the new state and `index + 1 + size`.  The
handler receives the payload slice `data[index + 1 : index + 1 + size]`,
here `rest.take size` for `rest` the buffer after the tag byte.
An out-of-range tag read would raise `IndexError`, modelled `none`
(unreachable: the walk loop guards `index < size`). -/
def _read_sensor (data : List ℕ) (index : ℕ) (s : Obs) : Option (Obs × ℕ) :=
  match data.drop index with
  | [] => none
  | sensor_id :: rest =>
      let hs := switcher sensor_id
      (applySensor hs.1 (rest.take hs.2) hs.2 s).map fun s2 => (s2, index + 1 + hs.2)

/-- The `while index < size` loop of `_parse_live_data` (lines 172-175),
with an explicit fuel argument for termination; each iteration advances
the index by at least 2, so fuel `data.length + 1` is never exhausted
(fuel exhaustion is modelled as failure).  Returns the final state and
the final cursor value. -/
def walkFrom (data : List ℕ) : ℕ → ℕ → Obs → Option (Obs × ℕ)
  | _, 0, _ => none
  | index, fuel + 1, s =>
      if index < data.length then
        match _read_sensor data index s with
        | none => none
        | some (s2, index2) => walkFrom data index2 fuel s2
      else some (s, index)

/-- Embedding of `_parse_live_data` (lines 170-175): strip the 5-byte header and the
trailing byte (`packet[5 : len(packet) - 1]`), then walk the records
from cursor 0.  `none` models an uncaught exception escaping the walk
(a `struct.error` from `read_int` on a truncated value-sensor record). -/
def _parse_live_data (packet : List ℕ) (s : Obs) : Option Obs :=
  let data := (packet.drop 5).dropLast
  (walkFrom data 0 (data.length + 1) s).map Prod.fst

/-- Modelled from the spec: `rmGetStartOfDayUtc`, imported by the
source from the RainMachine framework (`RMUtilsFramework.rmTimeUtils`)
and not part of this repository.  The spec describes it as the
timestamp truncated to start-of-day in UTC; floor division matches
epoch-second truncation. -/
def rmGetStartOfDayUtc (t : ℤ) : ℤ := 86400 * Int.fdiv t 86400

/-- Modelled from the spec: `rmGetStartOfDay`, imported by the source
from the same framework module.  It is the LOCAL start of day: the
timestamp truncated to the start of the calendar day in the configured
timezone, here parameterised by the UTC offset `tz` in seconds.  With
`tz = 0` it coincides with `rmGetStartOfDayUtc`. -/
def rmGetStartOfDay (tz t : ℤ) : ℤ := rmGetStartOfDayUtc (t + tz) - tz

/-- One reported value: `addValue(dataType, ts, value)` of the sink. -/
abbrev Emission := DataType × ℤ × ℚ

/-- Embedding of `_report_observations` (lines 357-387): compute the UTC start of
day of the stored period timestamp, increment the observation counter,
then emit the ten metrics, dividing the running sums by the counter
value after the increment. -/
def _report_observations (s : Obs) : Obs × List Emission :=
  let ts := rmGetStartOfDayUtc s.timestamp
  let s := { s with counter := s.counter + 1 }
  let observations_counter : ℚ := (s.counter : ℚ)
  (s, [ (.temperature, ts, s.temperature / observations_counter),
        (.maxtemp, ts, s.maxtemp),
        (.mintemp, ts, s.mintemp),
        (.rh, ts, s.rh / observations_counter),
        (.maxrh, ts, s.maxrh),
        (.minrh, ts, s.minrh),
        (.pressure, ts, s.pressure / observations_counter),
        (.wind, ts, s.wind / observations_counter),
        (.rain, ts, s.rain),
        (.solarradiation, ts, s.solarradiation / observations_counter) ])

/-- The contents backing `observations.json` as seen by
`_load_observations` (lines 332-342):
  * `missing`: `path.exists` is false;
  * `ioError`: opening or reading raises `IOError` (caught and logged);
  * `corrupt`: `json.load` raises `ValueError` (NOT caught: the
    `except` clause only covers `IOError`, so the error escapes);
  * `content o hasCounter`: a parsed dict, `hasCounter` records whether
    the `observations` counter key of the current schema is present. -/
inductive FileState
  | missing
  | ioError
  | corrupt
  | content (o : Obs) (hasCounter : Bool)
deriving DecidableEq, Repr

/-- The mutable parser state.  `cur` is `self.observations`,
`template` the class-level dict `ECOWITT.observations`, and `aliased`
is true exactly when `self.observations` IS the class dict (after
`_reset_observations` assigns it, until a successful `json.load`
rebinds `self.observations` to a fresh dict).  While aliased, every
mutation of `cur` also mutates `template`. -/
structure PState where
  template : Obs
  cur : Obs
  aliased : Bool
  liveDataTimestamp : ℤ
deriving DecidableEq, Repr

/-- The state at process start: `self.observations` resolves to the
pristine class dict, `liveDataTimestamp = 0` (line 70). -/
def initPState : PState :=
  { template := defaultObs, cur := defaultObs, aliased := true, liveDataTimestamp := 0 }

/-- Embedding of `_reset_observations` (lines 352-354): assign the class dict
(NOT a copy: `self.observations = ECOWITT.observations` aliases the
shared template), then set its timestamp key to `liveDataTimestamp`
(which, through the alias, also updates the template). -/
def _reset_observations (s : PState) : PState :=
  let t := { s.template with timestamp := s.liveDataTimestamp }
  { s with cur := t, template := t, aliased := true }

/-- Embedding of `_load_observations` (lines 332-342): load the file if present
(a successful `json.load` rebinds `self.observations` to a fresh
dict, ending any aliasing); reset when the file is missing; on
`IOError` only log, leaving the in-memory state unchanged; a
corrupted file raises an uncaught `ValueError`; finally reset when
the loaded dict lacks the `observations` counter key (the in-memory
dicts of this model always carry the counter, so the backward
compatibility check only fires on loaded content). -/
def _load_observations (file : FileState) (s : PState) : Except Unit PState :=
  match file with
  | .corrupt => .error ()
  | .missing => .ok (_reset_observations s)
  | .ioError => .ok s
  | .content o hasCounter =>
      let s := { s with cur := o, aliased := false }
      if hasCounter then .ok s else .ok (_reset_observations s)

/-- Embedding of `_save_observations` (lines 345-349): dump the current dict to the
file; the written file always carries the counter key. -/
def _save_observations (s : PState) : FileState := .content s.cur true

/-- Embedding of `_report_observations` lifted to the parser state: mutations of
`self.observations` propagate to the class template while aliased. -/
def reportP (s : PState) : PState × List Emission :=
  let r := _report_observations s.cur
  ({ s with cur := r.1, template := if s.aliased then r.1 else s.template }, r.2)

/-- Embedding of `_parse_live_data` lifted to the parser state: the sensor apply
functions mutate `self.observations` in place, so their effect reaches
the class template while aliased. -/
def parseP (packet : List ℕ) (s : PState) : Option PState :=
  (_parse_live_data packet s.cur).map fun c =>
    { s with cur := c, template := if s.aliased then c else s.template }

/-- The result of one successful poll cycle. -/
structure PollResult where
  state : PState
  emissions : List Emission
  file : FileState
deriving DecidableEq, Repr

/-- Embedding of `perform` (lines 82-99), after a successful connect and live-data
request: record the capture timestamp, load the persisted
observations, finalize and reset when the LOCAL start of day of the
new timestamp differs from that of the stored one
(`rmGetStartOfDay`, line 90), walk the packet, report, save.
`error` models an exception escaping `perform` (corrupted state file,
or a `struct.error` during the walk); nothing is saved then. -/
def perform (tz : ℤ) (file : FileState) (packet : List ℕ) (t : ℤ) (s : PState) :
    Except Unit PollResult :=
  let s := { s with liveDataTimestamp := t }
  match _load_observations file s with
  | .error e => .error e
  | .ok s =>
    let step1 : PState × List Emission :=
      if rmGetStartOfDay tz t = rmGetStartOfDay tz s.cur.timestamp then (s, [])
      else
        let r := reportP s
        (_reset_observations r.1, r.2)
    match parseP packet step1.1 with
    | none => .error ()
    | some s =>
      let r := reportP s
      .ok { state := r.1, emissions := step1.2 ++ r.2, file := _save_observations r.1 }

/-- The emissions of a poll cycle (none when the cycle aborted). -/
def emissionsOf : Except Unit PollResult → List Emission
  | .ok r => r.emissions
  | .error _ => []

/-- One event of the discovery environment: either `sock.recv` times
out (`socket.error`), or it returns a response packet. -/
inductive DiscResp
  | timeout
  | resp (bytes : List ℕ)
deriving DecidableEq, Repr

/-- The CMD_BROADCAST request frame of `_discover` (line 132):
FF FF 12 03 15. -/
def requestFrame : List ℕ := [0xff, 0xff, 0x12, 0x03, 0x15]

/-- The slice `packet[18 : len(packet) - 1]` (line 140): the device name bytes
of a discovery response. -/
def device_name (packet : List ℕ) : List ℕ :=
  (packet.drop 18).take (packet.length - 1 - 18)

/-- The check `device_name.startswith(GW)` (line 141): the first two name bytes
are 0x47 0x57. -/
def startsWithGW : List ℕ → Bool
  | a :: b :: _ => a == 0x47 && b == 0x57
  | _ => false

/-- The retry loop of `_discover` (lines 134-151).  The accumulator
`pkt` is the Python variable `packet`: it starts as the request frame,
is sent on every attempt, and is OVERWRITTEN by each received response
(`packet = sock.recv(1024)`), so it is not restored to the request
frame before the next attempt.  Returns the list of frames actually
broadcast, in order, and the accepted response if any. -/
def discoverLoop : List DiscResp → List ℕ → List (List ℕ) →
    List (List ℕ) × Option (List ℕ)
  | [], _, sent => (sent.reverse, none)
  | .timeout :: rest, pkt, sent => discoverLoop rest pkt (pkt :: sent)
  | .resp b :: rest, pkt, sent =>
      if startsWithGW (device_name b) then ((pkt :: sent).reverse, some b)
      else discoverLoop rest b (pkt :: sent)

/-- Embedding of `_discover` driven by an environment of (at most) five receive
events, matching `for n in range(5)`. -/
def _discover (env : List DiscResp) : List (List ℕ) × Option (List ℕ) :=
  discoverLoop (env.take 5) requestFrame []

/-! Record streams built from the registry.

Definitions used to state the walker claims: encoding a list of
tag-payload records into a byte stream, well-formedness (each payload
has exactly the length the registry declares for its tag), and the
fold of the corresponding sensor applications. -/

/-- A record stream: each record is a tag byte followed by its payload
bytes, concatenated with no separators. -/
def encodeRecords (rs : List (ℕ × List ℕ)) : List ℕ :=
  rs.flatMap fun r => r.1 :: r.2

/-- Every payload has exactly the length the switcher declares for its
tag byte. -/
def WellFormed (rs : List (ℕ × List ℕ)) : Prop :=
  ∀ r ∈ rs, (r.2).length = (switcher r.1).2

instance (rs : List (ℕ × List ℕ)) : Decidable (WellFormed rs) := by
  unfold WellFormed; infer_instance

/-- The effect of one record on the aggregation state (total: for a
well-formed record the handler never fails, see
`applySensor_complete`). -/
def stepRecord (r : ℕ × List ℕ) (s : Obs) : Obs :=
  (applySensor (switcher r.1).1 r.2 (switcher r.1).2 s).getD s

/-- Folding a record stream into the aggregation state, one handler
invocation per record occurrence, in stream order. -/
def foldRecords (rs : List (ℕ × List ℕ)) (s : Obs) : Obs :=
  rs.foldl (fun s r => stepRecord r s) s

/-- Size compatibility of a registry entry: a value sensor only ever
carries a payload size that `read_int` supports. -/
def sizeOkPair (hs : Handler × ℕ) : Bool :=
  match hs.1 with
  | .ignoreSensor => true
  | .unknownSensor => true
  | _ => hs.2 == 1 || hs.2 == 2 || hs.2 == 4

set_option maxHeartbeats 2000000 in
theorem tableOk (t : ℕ) : sizeOkPair (switcher t) = true := by
  unfold switcher
  split <;> rfl

theorem read_int_some (p : List ℕ) (u : Bool) (sz : ℕ)
    (hsz : sz = 1 ∨ sz = 2 ∨ sz = 4) (hlen : sz ≤ p.length) :
    ∃ v, read_int p u sz = some v := by
  rcases hsz with h | h | h <;> subst h
  · match p, hlen with
    | b0 :: _, _ => exact ⟨_, rfl⟩
  · match p, hlen with
    | b0 :: b1 :: _, _ => exact ⟨_, rfl⟩
  · match p, hlen with
    | b0 :: b1 :: b2 :: b3 :: _, _ => exact ⟨_, rfl⟩

theorem applySensor_isSome (t : ℕ) (p : List ℕ) (s : Obs)
    (h : p.length = (switcher t).2) :
    ∃ s2, applySensor (switcher t).1 p (switcher t).2 s = some s2 := by
  have hok := tableOk t
  rcases hsw : switcher t with ⟨hnd, sz⟩
  rw [hsw] at hok h
  cases hnd <;> simp only [applySensor]
  case ignoreSensor => exact ⟨s, rfl⟩
  case unknownSensor => exact ⟨s, rfl⟩
  all_goals {
    simp only [sizeOkPair, Bool.or_eq_true, beq_iff_eq] at hok
    obtain ⟨v, hv⟩ := read_int_some p false sz (by tauto) (by omega)
    first
    | exact ⟨_, by unfold _outdoor_temperature; rw [hv]; rfl⟩
    | exact ⟨_, by unfold _outdoor_humidity; rw [hv]; rfl⟩
    | exact ⟨_, by unfold _relative_barometric; rw [hv]; rfl⟩
    | exact ⟨_, by unfold _wind_speed; rw [hv]; rfl⟩
    | exact ⟨_, by unfold _rain_day; rw [hv]; rfl⟩
    | exact ⟨_, by unfold _light; rw [hv]; rfl⟩ }

theorem applySensor_complete (t : ℕ) (p : List ℕ) (s : Obs)
    (h : p.length = (switcher t).2) :
    applySensor (switcher t).1 p (switcher t).2 s = some (stepRecord (t, p) s) := by
  obtain ⟨s2, hs2⟩ := applySensor_isSome t p s h
  rw [stepRecord, hs2]
  rfl

theorem encodeRecords_length_ge (rs : List (ℕ × List ℕ)) :
    rs.length ≤ (encodeRecords rs).length := by
  induction rs with
  | nil => simp [encodeRecords]
  | cons r rs ih =>
      simp only [encodeRecords, List.flatMap_cons, List.length_append,
        List.length_cons] at ih ⊢
      omega

theorem walkFrom_step (data : List ℕ) (i i2 fuel : ℕ) (s s2 : Obs)
    (hlt : i < data.length) (h : _read_sensor data i s = some (s2, i2)) :
    walkFrom data i (fuel + 1) s = walkFrom data i2 fuel s2 := by
  rw [walkFrom, if_pos hlt, h]

/-- One walk step through a well-formed record consumes exactly
`1 + payloadSize` bytes and applies its handler once; iterated, the
walk moves the cursor from the start of the encoded records to their
end, folding them in order. -/
theorem walk_through (rs : List (ℕ × List ℕ)) :
    ∀ (pre post : List ℕ) (s : Obs) (fuel : ℕ), WellFormed rs → rs.length ≤ fuel →
    walkFrom (pre ++ (encodeRecords rs ++ post)) pre.length fuel s
      = walkFrom (pre ++ (encodeRecords rs ++ post))
          (pre.length + (encodeRecords rs).length) (fuel - rs.length)
          (foldRecords rs s) := by
  induction rs with
  | nil =>
      intro pre post s fuel _ _
      simp [encodeRecords, foldRecords]
  | cons r rs ih =>
      obtain ⟨t, p⟩ := r
      intro pre post s fuel hwf hfuel
      obtain ⟨fuel, rfl⟩ : ∃ g, fuel = g + 1 :=
        ⟨fuel - 1, by simp only [List.length_cons] at hfuel; omega⟩
      have hlen : p.length = (switcher t).2 := hwf (t, p) (List.mem_cons_self _ _)
      have hshape : encodeRecords ((t, p) :: rs) ++ post
          = t :: (p ++ (encodeRecords rs ++ post)) := by
        simp [encodeRecords, List.append_assoc]
      rw [hshape]
      have hlt : pre.length < (pre ++ (t :: (p ++ (encodeRecords rs ++ post)))).length := by
        simp [List.length_append]
      have hdrop : (pre ++ (t :: (p ++ (encodeRecords rs ++ post)))).drop pre.length
          = t :: (p ++ (encodeRecords rs ++ post)) := List.drop_left _ _
      have htake : (p ++ (encodeRecords rs ++ post)).take (switcher t).2 = p := by
        rw [← hlen]; exact List.take_left _ _
      have hread : _read_sensor (pre ++ (t :: (p ++ (encodeRecords rs ++ post))))
          pre.length s = some (stepRecord (t, p) s, pre.length + 1 + (switcher t).2) := by
        simp only [_read_sensor, hdrop, htake, applySensor_complete t p s hlen]
        rfl
      rw [walkFrom_step _ _ _ _ _ _ hlt hread]
      have hidx : pre.length + 1 + (switcher t).2 = (pre ++ t :: p).length := by
        simp only [List.length_append, List.length_cons, ← hlen]
        omega
      have hassoc : pre ++ (t :: (p ++ (encodeRecords rs ++ post)))
          = (pre ++ t :: p) ++ (encodeRecords rs ++ post) := by
        simp [List.append_assoc]
      rw [hidx, hassoc]
      have hfuel1 : rs.length ≤ fuel := by
        simp only [List.length_cons] at hfuel; omega
      rw [ih (pre ++ t :: p) post (stepRecord (t, p) s) fuel
        (fun q hq => hwf q (List.mem_cons_of_mem _ hq)) hfuel1]
      have hidx2 : (pre ++ t :: p).length + (encodeRecords rs).length
          = pre.length + (encodeRecords ((t, p) :: rs)).length := by
        simp only [encodeRecords, List.flatMap_cons, List.length_append,
          List.length_cons]
        omega
      have hfuel2 : fuel + 1 - ((t, p) :: rs).length = fuel - rs.length := by
        simp
      have hfold : foldRecords rs (stepRecord (t, p) s) = foldRecords ((t, p) :: rs) s := rfl
      rw [hidx2, hfold, hfuel2]

theorem walkFrom_fail (data : List ℕ) (i fuel : ℕ) (s : Obs)
    (hlt : i < data.length) (h : _read_sensor data i s = none) :
    walkFrom data i (fuel + 1) s = none := by
  rw [walkFrom, if_pos hlt, h]

theorem walkFrom_done (data : List ℕ) (i fuel : ℕ) (s : Obs)
    (h : ¬ i < data.length) :
    walkFrom data i (fuel + 1) s = some (s, i) := by
  rw [walkFrom, if_neg h]

/-- C6 (confirmed).  For every TLV stream built only from known or
unknown tags with well-formed payloads (each payload exactly as long
as the registry declares), the walk over the stripped data advances
the cursor by exactly `1 + payloadSize` per record, terminates with
the cursor exactly at the stripped payload length, and the resulting
state is the left fold of one handler application per record
occurrence, in order; on the full packet (arbitrary 5-byte header,
1-byte footer) `_parse_live_data` succeeds with that fold. -/
theorem C6_walk_consumes_exactly_and_folds_once
    (rs : List (ℕ × List ℕ)) (h5 : List ℕ) (f : ℕ) (s : Obs)
    (hwf : WellFormed rs) (hlen5 : h5.length = 5) :
    walkFrom (encodeRecords rs) 0 ((encodeRecords rs).length + 1) s
      = some (foldRecords rs s, (encodeRecords rs).length)
    ∧ _parse_live_data (h5 ++ (encodeRecords rs ++ [f])) s
      = some (foldRecords rs s) := by
  have hmain : walkFrom (encodeRecords rs) 0 ((encodeRecords rs).length + 1) s
      = some (foldRecords rs s, (encodeRecords rs).length) := by
    have h := walk_through rs [] [] s ((encodeRecords rs).length + 1) hwf
      (le_trans (encodeRecords_length_ge rs) (Nat.le_succ _))
    simp only [List.nil_append, List.append_nil, List.length_nil, Nat.zero_add] at h
    rw [h]
    obtain ⟨m, hm⟩ : ∃ m, (encodeRecords rs).length + 1 - rs.length = m + 1 :=
      ⟨(encodeRecords rs).length - rs.length,
        by have := encodeRecords_length_ge rs; omega⟩
    rw [hm]
    exact walkFrom_done _ _ _ _ (lt_irrefl _)
  refine ⟨hmain, ?_⟩
  have hD : ((h5 ++ (encodeRecords rs ++ [f])).drop 5).dropLast = encodeRecords rs := by
    rw [← hlen5, List.drop_left, List.dropLast_concat]
  simp only [_parse_live_data, hD, hmain]
  rfl

/-- Witness for C6 at a concrete stream: an outdoor temperature record
(tag 2, payload 01 F4) followed by an outdoor humidity record
(tag 7, payload 37). -/
theorem C6_walk_consumes_exactly_and_folds_once_witness :
    walkFrom (encodeRecords [(2, [1, 244]), (7, [55])]) 0
        ((encodeRecords [(2, [1, 244]), (7, [55])]).length + 1) defaultObs
      = some (foldRecords [(2, [1, 244]), (7, [55])] defaultObs,
          (encodeRecords [(2, [1, 244]), (7, [55])]).length)
    ∧ _parse_live_data
        ([0, 0, 0, 0, 0] ++ (encodeRecords [(2, [1, 244]), (7, [55])] ++ [0]))
        defaultObs
      = some (foldRecords [(2, [1, 244]), (7, [55])] defaultObs) :=
  C6_walk_consumes_exactly_and_folds_once [(2, [1, 244]), (7, [55])]
    [0, 0, 0, 0, 0] 0 defaultObs (by decide) (by decide)

/-- C5 counterexample.  The claim says every input packet makes the
walk terminate without error; but a packet whose stripped payload is
the truncated value-sensor record `02 01` (outdoor temperature, tag
size 2, only one payload byte left) makes `read_int` fail on the short
slice (`struct.error` in the source, uncaught), aborting the walk:
the model returns the error outcome `none`. -/
theorem C5_truncated_value_record_aborts_walk :
    _parse_live_data [0, 0, 0, 0, 0, 2, 1, 0] defaultObs = none := by decide

/-- C5 (corrected).  After any well-formed prefix of records, a
truncated trailing record is never folded into the state and the walk
never touches bytes beyond the buffer (the model reads only clamped
slices); but the walk terminates without error only when the truncated
record belongs to a non-value tag (here tag 1, ignored): the ignore
handler consumes nothing and the cursor overshoots the end, stopping
the loop.  For a truncated VALUE-sensor record (here tag 2, outdoor
temperature) the decode of the short slice fails and the walk aborts
with an error instead of stopping silently. -/
theorem C5_truncated_trailing_record_never_folded
    (rs : List (ℕ × List ℕ)) (b : ℕ) (s : Obs) (hwf : WellFormed rs) :
    _parse_live_data ([0, 0, 0, 0, 0] ++ (encodeRecords rs ++ [1, b, 0])) s
      = some (foldRecords rs s)
    ∧ _parse_live_data ([0, 0, 0, 0, 0] ++ (encodeRecords rs ++ [2, b, 0])) s
      = none := by
  have hfg : rs.length ≤ (encodeRecords rs).length + 2 + 1 :=
    le_trans (encodeRecords_length_ge rs) (by omega)
  constructor
  · have hD : ((([0, 0, 0, 0, 0] : List ℕ) ++ (encodeRecords rs ++ [1, b, 0])).drop 5).dropLast
        = encodeRecords rs ++ [1, b] := by
      have h1 : encodeRecords rs ++ [1, b, 0] = (encodeRecords rs ++ [1, b]) ++ [0] := by
        simp [List.append_assoc]
      rw [show (5 : ℕ) = ([0, 0, 0, 0, 0] : List ℕ).length from rfl, List.drop_left,
        h1, List.dropLast_concat]
    simp only [_parse_live_data, hD]
    have h := walk_through rs [] [1, b] s ((encodeRecords rs ++ [1, b]).length + 1) hwf
      (by have hge := encodeRecords_length_ge rs
          simp only [List.length_append, List.length_cons, List.length_nil]
          omega)
    simp only [List.nil_append, List.length_nil, Nat.zero_add] at h
    rw [h]
    obtain ⟨m, hm⟩ : ∃ m,
        (encodeRecords rs ++ [1, b]).length + 1 - rs.length = m + 1 + 1 :=
      ⟨(encodeRecords rs).length - rs.length + 1,
        by have hge := encodeRecords_length_ge rs
           simp only [List.length_append, List.length_cons, List.length_nil]
           omega⟩
    rw [hm]
    have hlt : (encodeRecords rs).length < (encodeRecords rs ++ [1, b]).length := by
      simp
    have hdropD : (encodeRecords rs ++ [1, b]).drop (encodeRecords rs).length
        = [1, b] := List.drop_left _ _
    have hread : _read_sensor (encodeRecords rs ++ [1, b]) (encodeRecords rs).length
        (foldRecords rs s) = some (foldRecords rs s, (encodeRecords rs).length + 1 + 2) := by
      simp only [_read_sensor, hdropD]
      rfl
    rw [walkFrom_step _ _ _ _ _ _ hlt hread]
    have hstop : ¬ (encodeRecords rs).length + 1 + 2
        < (encodeRecords rs ++ [1, b]).length := by
      simp only [List.length_append, List.length_cons, List.length_nil]
      omega
    rw [walkFrom_done _ _ _ _ hstop]
    rfl
  · have hD : ((([0, 0, 0, 0, 0] : List ℕ) ++ (encodeRecords rs ++ [2, b, 0])).drop 5).dropLast
        = encodeRecords rs ++ [2, b] := by
      have h1 : encodeRecords rs ++ [2, b, 0] = (encodeRecords rs ++ [2, b]) ++ [0] := by
        simp [List.append_assoc]
      rw [show (5 : ℕ) = ([0, 0, 0, 0, 0] : List ℕ).length from rfl, List.drop_left,
        h1, List.dropLast_concat]
    simp only [_parse_live_data, hD]
    have h := walk_through rs [] [2, b] s ((encodeRecords rs ++ [2, b]).length + 1) hwf
      (by have hge := encodeRecords_length_ge rs
          simp only [List.length_append, List.length_cons, List.length_nil]
          omega)
    simp only [List.nil_append, List.length_nil, Nat.zero_add] at h
    rw [h]
    obtain ⟨m, hm⟩ : ∃ m,
        (encodeRecords rs ++ [2, b]).length + 1 - rs.length = m + 1 :=
      ⟨(encodeRecords rs).length - rs.length + 2,
        by have hge := encodeRecords_length_ge rs
           simp only [List.length_append, List.length_cons, List.length_nil]
           omega⟩
    rw [hm]
    have hlt : (encodeRecords rs).length < (encodeRecords rs ++ [2, b]).length := by
      simp
    have hdropD : (encodeRecords rs ++ [2, b]).drop (encodeRecords rs).length
        = [2, b] := List.drop_left _ _
    have hread : _read_sensor (encodeRecords rs ++ [2, b]) (encodeRecords rs).length
        (foldRecords rs s) = none := by
      simp only [_read_sensor, hdropD]
      rfl
    rw [walkFrom_fail _ _ _ _ hlt hread]
    rfl

/-- Witness for the amended C5 at the empty record prefix. -/
theorem C5_truncated_trailing_record_never_folded_witness :
    _parse_live_data ([0, 0, 0, 0, 0] ++ (encodeRecords [] ++ [1, 9, 0])) defaultObs
      = some (foldRecords [] defaultObs)
    ∧ _parse_live_data ([0, 0, 0, 0, 0] ++ (encodeRecords [] ++ [2, 9, 0])) defaultObs
      = none :=
  C5_truncated_trailing_record_never_folded [] 9 defaultObs (by decide)

/-- C3 counterexample.  The claim says a report forced while the
observation counter is 0 is skipped entirely, with no metric values
emitted.  In the source `_report_observations` has no such guard: on
the default state (counter 0) it still emits all ten metrics (after
pre-incrementing the counter to 1). -/
theorem C3_report_with_zero_count_not_skipped :
    defaultObs.counter = 0 ∧ ((_report_observations defaultObs).2).length = 10 := by
  decide

/-- C3 (corrected).  When a report runs with observation counter 0,
the report is NOT skipped: the counter is first incremented to 1,
all ten metrics are emitted, and the running sums are divided by 1
(so the emitted temperature mean equals the raw running sum).  No
division by zero occurs, because of the pre-increment, not because of
a skip. -/
theorem C3_report_with_zero_count_divides_by_one (s : Obs) (h : s.counter = 0) :
    (_report_observations s).1.counter = 1
    ∧ ((_report_observations s).2).length = 10
    ∧ ((_report_observations s).2).head?
      = some (.temperature, rmGetStartOfDayUtc s.timestamp, s.temperature) := by
  refine ⟨by simp [_report_observations, h], by simp [_report_observations], ?_⟩
  simp [_report_observations, h]

/-- Witness for the amended C3 at the default state. -/
theorem C3_report_with_zero_count_divides_by_one_witness :
    defaultObs.counter = 0
    ∧ ((_report_observations defaultObs).1.counter = 1
      ∧ ((_report_observations defaultObs).2).length = 10
      ∧ ((_report_observations defaultObs).2).head?
        = some (.temperature, rmGetStartOfDayUtc defaultObs.timestamp,
            defaultObs.temperature)) :=
  ⟨rfl, C3_report_with_zero_count_divides_by_one defaultObs rfl⟩

/-! Rain high-water mark lemmas. -/

/-- The rain value decoded from one 2-byte rain-day payload, as
`_rain_day` computes it: signed big-endian decode divided by 10. -/
def rainReading (p : ℕ × ℕ) : ℚ :=
  (((read_int [p.1, p.2] false 2).getD 0 : ℤ) : ℚ) / 10

/-- Folding a sequence of 2-byte rain-day payloads into the state, one
`_rain_day` application per reading, as successive polls would. -/
def foldRainSeq : List (ℕ × ℕ) → Obs → Option Obs
  | [], s => some s
  | p :: ps, s =>
      match _rain_day [p.1, p.2] 2 s with
      | none => none
      | some s2 => foldRainSeq ps s2

theorem rain_if_max (s : Obs) (x : ℚ) :
    (if x > s.rain then { s with rain := x } else s) = { s with rain := max s.rain x } := by
  by_cases h : x > s.rain
  · rw [if_pos h, max_eq_right (le_of_lt h)]
  · rw [if_neg h, max_eq_left (not_lt.mp h)]

theorem rain_day_step (a b : ℕ) (s : Obs) :
    _rain_day [a, b] 2 s = some { s with rain := max s.rain (rainReading (a, b)) } := by
  obtain ⟨v, hv⟩ : ∃ v, read_int [a, b] false 2 = some v := ⟨_, rfl⟩
  have hread : rainReading (a, b) = (v : ℚ) / 10 := by
    rw [rainReading, hv]
    rfl
  unfold _rain_day
  rw [hv, hread]
  exact congrArg some (rain_if_max s ((v : ℚ) / 10))

theorem foldRainSeq_eq (ps : List (ℕ × ℕ)) : ∀ s : Obs,
    foldRainSeq ps s = some { s with rain := (ps.map rainReading).foldl max s.rain } := by
  induction ps with
  | nil => intro s; rfl
  | cons p ps ih =>
      intro s
      have hstep : foldRainSeq (p :: ps) s
          = foldRainSeq ps { s with rain := max s.rain (rainReading p) } := by
        rw [foldRainSeq, rain_day_step p.1 p.2 s]
      rw [hstep, ih]
      rfl

theorem foldl_max_le_init (l : List ℚ) : ∀ b : ℚ, b ≤ l.foldl max b := by
  induction l with
  | nil => intro b; exact le_refl b
  | cons x l ih => intro b; exact le_trans (le_max_left b x) (ih (max b x))

theorem mem_le_foldl_max (l : List ℚ) : ∀ (b x : ℚ), x ∈ l → x ≤ l.foldl max b := by
  induction l with
  | nil => intro b x hx; cases hx
  | cons y l ih =>
      intro b x hx
      rcases List.mem_cons.mp hx with h | h
      · subst h
        exact le_trans (le_max_right b x) (foldl_max_le_init l _)
      · exact ih _ x h

theorem read_int2_small (a b : ℕ) (h : a * 256 + b < 32768) :
    read_int [a, b] false 2 = some ((a * 256 + b : ℕ) : ℤ) := by
  simp [read_int, h]

theorem rainReading_nonneg (p : ℕ × ℕ) (h1 : p.1 < 128) (h2 : p.2 < 256) :
    0 ≤ rainReading p := by
  obtain ⟨a, b⟩ := p
  simp only at h1 h2
  rw [rainReading, read_int2_small a b (by omega)]
  simp only [Option.getD_some]
  positivity

/-- C7 (confirmed).  For any nonempty sequence of rain-day readings
folded within one period, starting from the default state (rain 0),
the stored rain total equals the maximum of the readings (for actual
device readings, whose raw values are non-negative); it never
decreases along any fold (so a later smaller reading is ignored, and
it is the running maximum, not the sum); and the report emits the
stored value undivided by the observation counter (ninth emitted
metric). -/
theorem C7_rain_is_high_water_mark (p : ℕ × ℕ) (ps : List (ℕ × ℕ))
    (hb : ∀ q ∈ p :: ps, q.1 < 128 ∧ q.2 < 256) :
    ∃ s2, foldRainSeq (p :: ps) defaultObs = some s2
      ∧ s2.rain = (ps.map rainReading).foldl max (rainReading p)
      ∧ (∀ q ∈ p :: ps, rainReading q ≤ s2.rain)
      ∧ (∀ (qs : List (ℕ × ℕ)) (u u2 : Obs), foldRainSeq qs u = some u2 →
          u.rain ≤ u2.rain)
      ∧ ((_report_observations s2).2)[8]?
        = some (.rain, rmGetStartOfDayUtc s2.timestamp, s2.rain) := by
  have hnn : 0 ≤ rainReading p :=
    rainReading_nonneg p (hb p (List.mem_cons_self _ _)).1 (hb p (List.mem_cons_self _ _)).2
  have hrain : ((p :: ps).map rainReading).foldl max defaultObs.rain
      = (ps.map rainReading).foldl max (rainReading p) := by
    simp only [List.map_cons, List.foldl_cons]
    rw [show defaultObs.rain = 0 from rfl, max_eq_right hnn]
  refine ⟨{ defaultObs with
      rain := ((p :: ps).map rainReading).foldl max defaultObs.rain },
    foldRainSeq_eq (p :: ps) defaultObs, hrain, ?_, ?_, rfl⟩
  · intro q hq
    show rainReading q ≤ ((p :: ps).map rainReading).foldl max defaultObs.rain
    exact mem_le_foldl_max _ _ _ (List.mem_map_of_mem rainReading hq)
  · intro qs u u2 h
    rw [foldRainSeq_eq qs u] at h
    have h2 := Option.some.inj h
    rw [← h2]
    exact foldl_max_le_init _ _

/-- Witness for C7 at the jitter sequence of raw rain readings
5, 7, 3 tenths of a millimetre: the stored total is 0.7 mm, the
maximum, not the sum 1.5 mm. -/
theorem C7_rain_is_high_water_mark_witness :
    (∃ s2, foldRainSeq [(0, 5), (0, 7), (0, 3)] defaultObs = some s2
      ∧ s2.rain = ([(0, 7), (0, 3)].map rainReading).foldl max (rainReading (0, 5))
      ∧ (∀ q ∈ [(0, 5), (0, 7), (0, 3)], rainReading q ≤ s2.rain)
      ∧ (∀ (qs : List (ℕ × ℕ)) (u u2 : Obs), foldRainSeq qs u = some u2 →
          u.rain ≤ u2.rain)
      ∧ ((_report_observations s2).2)[8]?
        = some (.rain, rmGetStartOfDayUtc s2.timestamp, s2.rain))
    ∧ ([(0, 7), (0, 3)].map rainReading).foldl max (rainReading (0, 5)) = 7 / 10 := by
  refine ⟨C7_rain_is_high_water_mark (0, 5) [(0, 7), (0, 3)] (by decide), ?_⟩
  simp only [List.map_cons, List.map_nil, List.foldl_cons, List.foldl_nil]
  rw [show rainReading (0, 5) = 1 / 2 from by norm_num [rainReading, read_int],
    show rainReading (0, 7) = 7 / 10 from by norm_num [rainReading, read_int],
    show rainReading (0, 3) = 3 / 10 from by norm_num [rainReading, read_int]]
  rw [show max (1 / 2 : ℚ) (7 / 10) = 7 / 10 from max_eq_right (by norm_num),
    show max (7 / 10 : ℚ) (3 / 10) = 7 / 10 from max_eq_left (by norm_num)]

/-! Poll-cycle level claims. -/

/-- A state persisted after one period with exactly one folded
temperature reading of 10 degrees: counter 1, running sum 10. -/
def obsC1 : Obs :=
  { defaultObs with
    counter := 1
    temperature := 10
    maxtemp := 10
    mintemp := 10
    timestamp := 1000 }

/-- C1 (code bug).  With k = 1 folded temperature reading t1 = 10 the
claim requires the finalizing rollover report to emit temperature-mean
10 / 1 = 10.  But `_report_observations` increments the counter on
EVERY call, including the finalizing call at rollover where no packet
was walked, so the finalizing report divides the sum of 1 reading by
2 and emits 5: at the moment of division the counter does not equal
the number of folded packets. -/
theorem C1_finalizing_report_divides_by_extra_count :
    obsC1.counter = 1 ∧ obsC1.temperature = 10
    ∧ (emissionsOf (perform 0 (.content obsC1 true) [0, 0, 0, 0, 0, 0] 86500
        initPState)).head?
      = some (.temperature, 0, 5) := by
  refine ⟨rfl, rfl, ?_⟩
  norm_num [perform, _load_observations, _reset_observations, reportP, parseP,
    _parse_live_data, walkFrom, _report_observations, _save_observations,
    emissionsOf, rmGetStartOfDay, rmGetStartOfDayUtc, obsC1, initPState, defaultObs,
    Int.fdiv]

/-- A persisted previous-day state for the two-rollover run. -/
def obsC2 : Obs :=
  { defaultObs with
    counter := 3
    temperature := 30
    maxtemp := 12
    mintemp := 8
    timestamp := 1000 }

/-- A live-data packet holding one outdoor temperature record of
20.0 degrees (tag 02, payload 00 C8). -/
def pktTemp20 : List ℕ := [0, 0, 0, 0, 0, 0x02, 0x00, 0xC8, 0x00]

/-- Two consecutive daily polls, each in a new UTC day: the first
(day 1) rolls over a loaded previous-day state and folds one 20-degree
temperature reading; the second (day 2, empty packet) rolls over
again. -/
def runTwoDays : Except Unit PollResult :=
  match perform 0 (.content obsC2 true) pktTemp20 86450 initPState with
  | .error e => .error e
  | .ok p1 => perform 0 p1.file [0, 0, 0, 0, 0, 0] 172850 p1.state

/-- Counter, temperature sum and max temperature of the final
in-memory state of a poll run. -/
def resultFields : Except Unit PollResult → ℕ × ℚ × ℚ
  | .ok p => (p.state.cur.counter, p.state.cur.temperature, p.state.cur.maxtemp)
  | .error _ => (0, 0, 0)

theorem switcher_two : switcher 2 = (.outdoorTemperature, 2) := rfl

set_option maxHeartbeats 1000000 in
/-- C2 (code bug).  After the SECOND rollover the claim requires the
aggregation state to be the documented defaults: counter 0 (1 after
the new-day report), sums 0, maxTemp -100.  But `_reset_observations`
assigns the shared class-level dict instead of a copy, so the folds
and the counter increment of day 1 (which happened while
`self.observations` aliased that dict) contaminate the reset template:
after the day-2 rollover and an EMPTY packet the state carries
counter 2, temperature sum 20 and maxTemp 20 from day 1, instead of
the claimed 1, 0, -100. -/
theorem C2_reset_after_rollover_not_default :
    resultFields runTwoDays = (2, 20, 20) := by
  norm_num [runTwoDays, resultFields, perform, _load_observations, _reset_observations,
    reportP, parseP, _parse_live_data, walkFrom, _read_sensor, switcher_two, applySensor,
    _outdoor_temperature, read_int, _report_observations, _save_observations,
    obsC2, pktTemp20, initPState, defaultObs, rmGetStartOfDay, rmGetStartOfDayUtc, Int.fdiv]

/-- C4 counterexample.  The claim says the rollover is triggered if
and only if the UTC start-of-day changes.  With a timezone one hour
east of UTC, timestamps 86000 and 86400 lie in different UTC days but
in the same LOCAL day; the poll performs NO finalizing report (only
the 10 emissions of the regular report), because `perform` compares
with `rmGetStartOfDay`, not `rmGetStartOfDayUtc`. -/
theorem C4_utc_day_change_without_rollover :
    rmGetStartOfDayUtc 86000 ≠ rmGetStartOfDayUtc 86400
    ∧ rmGetStartOfDay 3600 86000 = rmGetStartOfDay 3600 86400
    ∧ (emissionsOf (perform 3600 (.content { defaultObs with timestamp := 86000 } true)
        [0, 0, 0, 0, 0, 0] 86400 initPState)).length = 10 := by
  refine ⟨by decide, by decide, ?_⟩
  norm_num [perform, _load_observations, reportP, parseP, _parse_live_data, walkFrom,
    _report_observations, emissionsOf, rmGetStartOfDay, rmGetStartOfDayUtc,
    initPState, defaultObs, Int.fdiv]

/-- C4 (corrected).  For every poll (loaded state `o`, empty packet)
the finalize-and-reset is triggered if and only if the LOCAL start of
day (`rmGetStartOfDay`) of the new timestamp differs from that of the
stored timestamp — 20 emissions instead of 10 — while the finalized
report is tagged with the UTC start of day (`rmGetStartOfDayUtc`) of
the previous period timestamp: the comparison and the tag use two
DIFFERENT day functions. -/
theorem C4_rollover_iff_local_day_change (tz t : ℤ) (o : Obs) :
    ((emissionsOf (perform tz (.content o true) [0, 0, 0, 0, 0, 0] t initPState)).length
      = if rmGetStartOfDay tz t = rmGetStartOfDay tz o.timestamp then 10 else 20)
    ∧ (rmGetStartOfDay tz t ≠ rmGetStartOfDay tz o.timestamp →
        (emissionsOf (perform tz (.content o true) [0, 0, 0, 0, 0, 0] t initPState)).head?
          = some (.temperature, rmGetStartOfDayUtc o.timestamp,
              o.temperature / ((o.counter + 1 : ℕ) : ℚ))) := by
  by_cases hd : rmGetStartOfDay tz t = rmGetStartOfDay tz o.timestamp
  · simp [perform, _load_observations, parseP, _parse_live_data, walkFrom,
      reportP, _report_observations, emissionsOf, hd]
  · simp [perform, _load_observations, parseP, _parse_live_data, walkFrom,
      reportP, _report_observations, emissionsOf, hd]

/-- A loaded state whose stored timestamp lies in UTC day 0. -/
def obsC4w : Obs := { defaultObs with timestamp := 100 }

/-- Witness for the amended C4: at timezone offset 0 a poll at
timestamp 86400 against a stored timestamp 100 triggers the rollover,
and the finalized report is tagged with the UTC start of day of the
stored timestamp. -/
theorem C4_rollover_iff_local_day_change_witness :
    (emissionsOf (perform 0 (.content obsC4w true) [0, 0, 0, 0, 0, 0] 86400
        initPState)).head?
      = some (.temperature, rmGetStartOfDayUtc obsC4w.timestamp,
          obsC4w.temperature / ((obsC4w.counter + 1 : ℕ) : ℚ)) :=
  (C4_rollover_iff_local_day_change 0 86400 obsC4w).2 (by decide)

/-- An in-memory state left over from an earlier cycle: a stale
temperature sum of 42 and a stored timestamp different from the
current poll timestamp 5. -/
def stalePState : PState :=
  { template := defaultObs
    cur := { defaultObs with temperature := 42 }
    aliased := false
    liveDataTimestamp := 5 }

/-- C8 counterexample.  The claim says `load` on an unreadable file
yields the default period with the period timestamp set to
the current poll timestamp.  But the source catches the `IOError`,
only logs it, and keeps the previous in-memory state unchanged: the
stale sum 42 survives and the stored timestamp is not set to the
current timestamp. -/
theorem C8_load_ioerror_keeps_stale_state :
    _load_observations .ioError stalePState = .ok stalePState
    ∧ stalePState.cur.temperature = 42
    ∧ stalePState.cur.temperature ≠ defaultObs.temperature
    ∧ stalePState.cur.timestamp ≠ stalePState.liveDataTimestamp := by
  refine ⟨rfl, rfl, by norm_num [stalePState, defaultObs], by decide⟩

/-- C8 (corrected).  What the persistence pair actually guarantees:
save followed by load restores exactly the saved observation dict
(all fields equal, round trip); load on a missing file, or on a file
lacking the observation-counter key (prior schema), resets — the
reset state being the shared template with the timestamp set to the
current poll timestamp (the documented defaults only when the
template is still pristine, see C2); load on an unreadable file
(IOError) leaves the in-memory state unchanged; load on a corrupted
file raises an uncaught error (`ValueError` is not caught by the
`except IOError` clause). -/
theorem C8_persistence_contract :
    (∀ (s s2 : PState), _load_observations (_save_observations s) s2
      = .ok { s2 with cur := s.cur, aliased := false })
    ∧ (∀ s : PState, _load_observations .missing s = .ok (_reset_observations s))
    ∧ (∀ (o : Obs) (s : PState), _load_observations (.content o false) s
      = .ok (_reset_observations { s with cur := o, aliased := false }))
    ∧ (∀ s : PState, _load_observations .ioError s = .ok s)
    ∧ (∀ s : PState, _load_observations .corrupt s = .error ())
    ∧ (∀ s : PState, (_reset_observations s).cur
      = { s.template with timestamp := s.liveDataTimestamp }) :=
  ⟨fun _ _ => rfl, fun _ => rfl, fun _ _ => rfl, fun _ => rfl, fun _ => rfl,
    fun _ => rfl⟩

/-- A discovery response announcing an unsupported console named AMB
(name bytes start at offset 18, last byte excluded). -/
def ambPacket : List ℕ := List.replicate 18 0 ++ [0x41, 0x4D, 0x42, 0x00]

/-- C9 (code bug).  The claim says every discovery attempt, including
retries after rejecting a non-GW device, broadcasts exactly the
request frame FF FF 12 03 15.  In the source the variable `packet` is
overwritten by `sock.recv`, so after attempt 1 receives (and rejects)
the AMB response, attempts 2 to 5 broadcast the received response
bytes instead of the request frame; after the 5 attempts discovery
returns failure (no accepted response).  The failure outcome itself
matches the claim; the re-broadcast frame does not. -/
theorem C9_retry_broadcasts_received_packet :
    _discover [.resp ambPacket, .timeout, .timeout, .timeout, .timeout]
      = ([requestFrame, ambPacket, ambPacket, ambPacket, ambPacket], none)
    ∧ ambPacket ≠ requestFrame := by decide

/-- C10 (confirmed).  Every value-sensor apply function passes `False`
as the `unsigned` flag of `read_int`, so payloads decode as big-endian
two-complement SIGNED integers: any 2-byte payload with the high bit
of the first byte set decodes negative; 0xFF38 folds outdoor
temperature -20 (never 6553.6); and the same signed decode applies to
the physically non-negative channels — humidity 0xFF gives -1,
pressure 0xFF38 gives -2, wind 0xFF38 gives -20, rain 0xFF38 decodes
-20 (rejected by the high-water mark, total stays 0), and light
0xFFFFFF38 folds a negative solar radiation. -/
theorem C10_all_value_sensors_decode_signed (b0 b1 : ℕ)
    (h0 : 128 ≤ b0) (h1 : b0 < 256) (h2 : b1 < 256) :
    (read_int [b0, b1] false 2 = some (((b0 * 256 + b1 : ℕ) : ℤ) - 65536)
      ∧ (((b0 * 256 + b1 : ℕ) : ℤ) - 65536) < 0)
    ∧ (_outdoor_temperature [255, 56] 2 defaultObs).map Obs.temperature = some (-20)
    ∧ (_outdoor_humidity [255] 1 defaultObs).map Obs.rh = some (-1)
    ∧ (_relative_barometric [255, 56] 2 defaultObs).map Obs.pressure = some (-2)
    ∧ (_wind_speed [255, 56] 2 defaultObs).map Obs.wind = some (-20)
    ∧ (_rain_day [255, 56] 2 defaultObs).map Obs.rain = some 0
    ∧ (_light [255, 255, 255, 56] 4 defaultObs).map Obs.solarradiation
      = some (-711 / 1250000) := by
  have hv : ¬ (b0 * 256 + b1 < 32768) := by omega
  refine ⟨⟨?_, ?_⟩, ?_, ?_, ?_, ?_, ?_, ?_⟩
  · simp [read_int, hv]
  · have hlt : (b0 * 256 + b1 : ℕ) < 65536 := by omega
    omega
  · norm_num [_outdoor_temperature, read_int, defaultObs]
  · norm_num [_outdoor_humidity, read_int, defaultObs]
  · norm_num [_relative_barometric, read_int, defaultObs]
  · norm_num [_wind_speed, read_int, defaultObs]
  · norm_num [_rain_day, read_int, defaultObs]
  · norm_num [_light, read_int, defaultObs]

/-- Witness for C10 at the high-bit payload FF 38: the decode is
-200, not the unsigned 65336. -/
theorem C10_all_value_sensors_decode_signed_witness :
    (read_int [255, 56] false 2 = some (((255 * 256 + 56 : ℕ) : ℤ) - 65536)
      ∧ (((255 * 256 + 56 : ℕ) : ℤ) - 65536) < 0)
    ∧ (_outdoor_temperature [255, 56] 2 defaultObs).map Obs.temperature = some (-20)
    ∧ (_outdoor_humidity [255] 1 defaultObs).map Obs.rh = some (-1)
    ∧ (_relative_barometric [255, 56] 2 defaultObs).map Obs.pressure = some (-2)
    ∧ (_wind_speed [255, 56] 2 defaultObs).map Obs.wind = some (-20)
    ∧ (_rain_day [255, 56] 2 defaultObs).map Obs.rain = some 0
    ∧ (_light [255, 255, 255, 56] 4 defaultObs).map Obs.solarradiation
      = some (-711 / 1250000) :=
  C10_all_value_sensors_decode_signed 255 56 (by decide) (by decide) (by decide)
